import Mathlib

/-!
Shallow embedding of `scripts/fetch-games.py`: the SWF header validator, the
slug-to-title normalizer, the Flashpoint search resolver, the direct/Wayback
retrieval strategy, and the batch orchestrator, together with theorems
checking the specification's claims about them.

Network I/O is modelled by an environment `Env` mapping each issued request
to its (optional) response body, and `json.loads` by an oracle from bodies
to JSON values; Python exceptions are modelled by `Except Unit`, with
`.error ()` marking a raised exception.  Each function also reports the list
of network requests it issued.
-/

namespace FetchGames

/-- A JSON value, as produced by `json.loads`.  Objects are association
lists with string keys. -/
inductive JValue where
  | null : JValue
  | bool : Bool → JValue
  | num : Int → JValue
  | str : String → JValue
  | arr : List JValue → JValue
  | obj : List (String × JValue) → JValue

/-- Python truthiness of a JSON value (`if not x` tests). -/
def jTruthy : JValue → Bool
  | .null => false
  | .bool b => b
  | .num n => n != 0
  | .str s => s != ""
  | .arr xs => !xs.isEmpty
  | .obj fs => !fs.isEmpty

/-- Python `s.lower()` (ASCII, as used by the script). -/
def pyLower (s : String) : String := String.mk (s.toList.map Char.toLower)

/-- Substring test on character lists: `needle` occurs inside the list. -/
def infixCheck (needle : List Char) : List Char → Bool
  | [] => needle.isEmpty
  | c :: t => needle.isPrefixOf (c :: t) || infixCheck needle t

/-- Python `needle in hay` on strings (substring containment). -/
def strContains (hay needle : String) : Bool := infixCheck needle.toList hay.toList

/-- Python `s.startswith(p)`. -/
def strStarts (s p : String) : Bool := p.toList.isPrefixOf s.toList

/-- Python `r.get(key, default)` — raises (AttributeError) unless `r` is a
dict. -/
def jGet : JValue → String → JValue → Except Unit JValue
  | .obj fs, k, d => .ok ((fs.lookup k).getD d)
  | _, _, _ => .error ()

/-- Python `.lower()` on a JSON value — raises unless it is a string. -/
def jLower : JValue → Except Unit String
  | .str s => .ok (pyLower s)
  | _ => .error ()

/-- Python iteration `for r in v`: lists yield their elements, strings their
characters, dicts their keys; anything else raises (TypeError). -/
def jIter : JValue → Except Unit (List JValue)
  | .arr xs => .ok xs
  | .str s => .ok (s.toList.map fun c => .str (String.mk [c]))
  | .obj fs => .ok (fs.map fun p => .str p.1)
  | _ => .error ()

/-- Python `len(v)` — raises on numbers, booleans and `None`. -/
def jLen : JValue → Except Unit Nat
  | .arr xs => .ok xs.length
  | .str s => .ok s.toList.length
  | .obj fs => .ok fs.length
  | _ => .error ()

/-- Python `v[i]` for a non-negative index: lists and strings index
positionally and raise IndexError past the end; dicts raise KeyError for an
integer key (the script's dicts all have string keys); other values raise
TypeError. -/
def jIndex : JValue → Nat → Except Unit JValue
  | .arr xs, i =>
    match xs.get? i with
    | some x => .ok x
    | none => .error ()
  | .str s, i =>
    match s.toList.get? i with
    | some c => .ok (.str (String.mk [c]))
    | none => .error ()
  | _, _ => .error ()

mutual

/-- Python `str(v)` for a JSON value, as used by `str.format` when building
the Wayback raw URL. -/
def pyStr : JValue → String
  | .null => "None"
  | .bool b => if b then "True" else "False"
  | .num n => toString n
  | .str s => s
  | .arr xs => "[" ++ pyStrElems xs ++ "]"
  | .obj fs => "\x7b" ++ pyStrFields fs ++ "\x7d"

/-- Python `repr(v)`, used for elements nested inside containers (strings
are quoted there). -/
def pyReprV : JValue → String
  | .null => "None"
  | .bool b => if b then "True" else "False"
  | .num n => toString n
  | .str s => "'" ++ s ++ "'"
  | .arr xs => "[" ++ pyStrElems xs ++ "]"
  | .obj fs => "\x7b" ++ pyStrFields fs ++ "\x7d"

/-- Comma-separated reprs of list elements. -/
def pyStrElems : List JValue → String
  | [] => ""
  | [x] => pyReprV x
  | x :: xs => pyReprV x ++ ", " ++ pyStrElems xs

/-- Comma-separated `'key': value` reprs of dict entries. -/
def pyStrFields : List (String × JValue) → String
  | [] => ""
  | [(k, v)] => "'" ++ k ++ "': " ++ pyReprV v
  | (k, v) :: fs => "'" ++ k ++ "': " ++ pyReprV v ++ ", " ++ pyStrFields fs

end

/-- One HTTP GET issued by the script: the base URL, the urlencoded query
parameters (empty for a plain fetch), and the timeout passed to
`urllib.request.urlopen`. -/
structure Request where
  base : String
  params : List (String × String)
  timeout : Nat

/-- The external world: `httpGet` is the script's `http_get` (which swallows
every exception and returns `None`, hence an `Option` with no error case),
and `jsonLoads` is `json.loads` on a returned body (which can raise). -/
structure Env where
  httpGet : Request → Option (List Nat)
  jsonLoads : List Nat → Except Unit JValue

def FLASHPOINT_API : String := "https://db-api.unstable.life"

def WAYBACK_CDX : String := "https://web.archive.org/cdx/search/cdx"

/-- `WAYBACK_RAW.format(timestamp=ts, url=u)`. -/
def waybackRawUrl (ts u : String) : String :=
  "https://web.archive.org/web/" ++ ts ++ "oe_/" ++ u

/-- The `TITLE_OVERRIDES` table. -/
def TITLE_OVERRIDES : List (String × String) := [
  ("14303_vrdefendery3k", "VR Defender Y3K"),
  ("1048_castle", "1048 Castle"),
  ("alien-hominid", "Alien Hominid"),
  ("bot-arena-2", "Bot Arena 2"),
  ("bow-master-prelude", "Bow Master Prelude"),
  ("bubble-tanks-2", "Bubble Tanks 2"),
  ("bunny-invasion-2", "Bunny Invasion 2"),
  ("copter", "Helicopter Game"),
  ("crush-the-castle", "Crush the Castle"),
  ("d-fence-2", "D-Fence 2"),
  ("defend-your-castle", "Defend Your Castle"),
  ("demonic-defence-3", "Demonic Defence 3"),
  ("dolphin-olympics-2", "Dolphin Olympics 2"),
  ("double-wires", "Double Wires"),
  ("fancy-pants-adventure", "The Fancy Pants Adventures"),
  ("fancy-pants-adventure-2", "The Fancy Pants Adventures: World 2"),
  ("gem-tower-defense", "Gem Tower Defense"),
  ("gravity-game", "Gravity Game"),
  ("gunmaster-jungle", "Gunmaster Jungle"),
  ("hot-air-baloons", "Hot Air Balloon"),
  ("interactive-buddy", "Interactive Buddy"),
  ("line-rider-beta-2", "Line Rider"),
  ("the-last-stand-2", "The Last Stand 2"),
  ("madness-accelerant", "Madness Accelerant"),
  ("max-dirtbike", "Max Dirt Bike"),
  ("me2d-game", "ME2D"),
  ("missile-game-3d", "Missile Game 3D"),
  ("n-ninja", "N (The Way of the Ninja)"),
  ("pet-protector-2", "Pet Protector 2"),
  ("phage-wars", "Phage Wars"),
  ("portal", "Portal: The Flash Version"),
  ("raiden-x", "Raiden X"),
  ("realm-of-the-mad-god", "Realm of the Mad God"),
  ("sonny-2", "Sonny 2"),
  ("stick-strike", "Stick Strike"),
  ("super-mario-flash", "Super Mario Flash"),
  ("super-smash-flash", "Super Smash Flash"),
  ("bloons-tower-defense-3", "Bloons Tower Defense 3"),
  ("bloons-tower-defense-4", "Bloons Tower Defense 4")]

/-- The fixed `GAMES` identifier list. -/
def GAMES : List String := [
  "14303_vrdefendery3k", "1048_castle", "adrenaline", "alien-hominid",
  "alpha-bravo-charlie", "archer", "asteroids", "avalanche",
  "bloons-tower-defense-3", "bloons-tower-defense-4", "bot-arena-2",
  "bowman", "bow-master-prelude", "bubble-tanks-2", "bubble-tanks",
  "bubble-trouble", "bunny-invasion-2", "copter", "cubefield", "curveball",
  "crush-the-castle", "d-fence-2", "defend-your-castle", "demonic-defence-3",
  "dolphin-olympics-2", "double-wires", "fancy-pants-adventure-2",
  "fancy-pants-adventure", "feudalism-2", "fishy", "gem-tower-defense",
  "gravity-game", "gunmaster-jungle", "helicopter", "hot-air-baloons",
  "interactive-buddy", "line-rider-beta-2", "the-last-stand-2",
  "manhattan-project", "madness-accelerant", "max-dirtbike", "me2d-game",
  "missile-game-3d", "n-ninja", "pet-protector-2", "phage-wars", "portal",
  "raiden-x", "realm-of-the-mad-god", "run", "sonny-2", "sonny", "stairfall",
  "stick-strike", "super-mario-flash", "super-smash-flash", "tanks",
  "trampoline"]

/-- `slug.replace("-", " ").replace("_", " ")`: the two successive
single-character replacements. -/
def replaceSeps (s : String) : String :=
  String.mk ((s.toList.map fun c => if c = '-' then ' ' else c).map
    fun c => if c = '_' then ' ' else c)

/-- One step of Python `str.title()`: a letter that follows a letter is
lowercased, a letter that starts a letter run is uppercased, other
characters pass through (and end the current run). -/
def titleAux : Bool → List Char → List Char
  | _, [] => []
  | prevLetter, c :: cs =>
    (if c.isAlpha then (if prevLetter then c.toLower else c.toUpper) else c)
      :: titleAux c.isAlpha cs

/-- Python `s.title()` (ASCII letters, as used by the script). -/
def pyTitle (s : String) : String := String.mk (titleAux false s.toList)

/-- `slug_to_title`. -/
def slug_to_title (slug : String) : String :=
  match TITLE_OVERRIDES.lookup slug with
  | some t => t
  | none => pyTitle (replaceSeps slug)

def FWS : List Nat := [70, 87, 83]

def CWS : List Nat := [67, 87, 83]

def ZWS : List Nat := [90, 87, 83]

/-- `is_valid_swf`: `not data or len(data) < 8` fails closed, then the first
three bytes must be one of the `FWS` / `CWS` / `ZWS` magic signatures. -/
def is_valid_swf : Option (List Nat) → Bool
  | none => false
  | some d =>
    if d.isEmpty ∨ d.length < 8 then false
    else decide (d.take 3 = FWS ∨ d.take 3 = CWS ∨ d.take 3 = ZWS)

/-- The query issued by `search_flashpoint`. -/
def searchRequest (title : String) : Request :=
  ⟨FLASHPOINT_API ++ "/search",
    [("title", title), ("fields", "id,title,platform,launchCommand"),
     ("limit", "15")], 20⟩

/-- Loop-1 condition:
`r.get("title", "").lower() == title_lower and "flash" in r.get("platform", "").lower()`
(with Python's short-circuit `and`). -/
def cond1 (titleLower : String) (r : JValue) : Except Unit Bool :=
  match jGet r "title" (.str "") with
  | .error e => .error e
  | .ok t =>
    match jLower t with
    | .error e => .error e
    | .ok tl =>
      if tl = titleLower then
        match jGet r "platform" (.str "") with
        | .error e => .error e
        | .ok p =>
          match jLower p with
          | .error e => .error e
          | .ok pl => .ok (strContains pl "flash")
      else .ok false

/-- Loop-2 condition: `r.get("title", "").lower() == title_lower`. -/
def cond2 (titleLower : String) (r : JValue) : Except Unit Bool :=
  match jGet r "title" (.str "") with
  | .error e => .error e
  | .ok t =>
    match jLower t with
    | .error e => .error e
    | .ok tl => .ok (decide (tl = titleLower))

/-- Loop-3 condition: `"flash" in r.get("platform", "").lower()`. -/
def cond3 (r : JValue) : Except Unit Bool :=
  match jGet r "platform" (.str "") with
  | .error e => .error e
  | .ok p =>
    match jLower p with
    | .error e => .error e
    | .ok pl => .ok (strContains pl "flash")

/-- A `for r in items: if cond(r): return r` loop, propagating exceptions
raised while evaluating the condition. -/
def findFirstE (p : JValue → Except Unit Bool) : List JValue → Except Unit (Option JValue)
  | [] => .ok none
  | r :: rs =>
    match p r with
    | .error e => .error e
    | .ok true => .ok (some r)
    | .ok false => findFirstE p rs

/-- Classification of one `http_get` + falsy-check + `json.loads` sequence,
as performed identically at the top of `search_flashpoint` and
`try_wayback`: `noData` covers `http_get` returning `None` (any network
exception) and an empty (falsy) body, `parseError` a `json.loads` that
raises. -/
inductive CatalogResponse where
  | noData : CatalogResponse
  | parseError : CatalogResponse
  | parsed : JValue → CatalogResponse

/-- Runs `http_get` for `req` in `env` and classifies the outcome. -/
def classify (env : Env) (req : Request) : CatalogResponse :=
  match env.httpGet req with
  | none => .noData
  | some data =>
    if data.isEmpty then .noData
    else
      match env.jsonLoads data with
      | .error _ => .parseError
      | .ok j => .parsed j

/-- The selection logic of `search_flashpoint` downstream of the HTTP query:
`if not results: return None`, then the three priority loops, then
`return results[0]`. -/
def select_result (title : String) (resp : CatalogResponse) : Except Unit (Option JValue) :=
  match resp with
  | .noData => .ok none
  | .parseError => .ok none
  | .parsed results =>
    if jTruthy results then
      match jIter results with
      | .error e => .error e
      | .ok items =>
        match findFirstE (cond1 (pyLower title)) items with
        | .error e => .error e
        | .ok (some r) => .ok (some r)
        | .ok none =>
          match findFirstE (cond2 (pyLower title)) items with
          | .error e => .error e
          | .ok (some r) => .ok (some r)
          | .ok none =>
            match findFirstE cond3 items with
            | .error e => .error e
            | .ok (some r) => .ok (some r)
            | .ok none =>
              match jIndex results 0 with
              | .error e => .error e
              | .ok r => .ok (some r)
    else .ok none

/-- `search_flashpoint`: issues the catalog query and applies the selection
logic; also reports the single request it issued. -/
def search_flashpoint (env : Env) (title : String) :
    Except Unit (Option JValue) × List Request :=
  (select_result title (classify env (searchRequest title)), [searchRequest title])

/-- The known-dead URL marker tested by `url.startswith(...)`. -/
def LOCALFLASH : String := "http://localflash"

/-- `try_direct`: the `if not url or url.startswith("http://localflash")`
guard (where `startswith` on a truthy non-string raises), then one direct
GET with timeout 15, accepted only if `is_valid_swf` passes. -/
def try_direct (env : Env) (url : JValue) :
    Except Unit (Option (List Nat)) × List Request :=
  if jTruthy url then
    match url with
    | .str u =>
      if strStarts u LOCALFLASH then (.ok none, [])
      else
        let data := env.httpGet ⟨u, [], 15⟩
        if is_valid_swf data then (.ok data, [⟨u, [], 15⟩])
        else (.ok none, [⟨u, [], 15⟩])
    | _ => (.error (), [])
  else (.ok none, [])

/-- The CDX index query issued by `try_wayback` (default timeout 20). -/
def cdxRequest (u : String) : Request :=
  ⟨WAYBACK_CDX,
    [("url", u), ("output", "json"), ("limit", "1"),
     ("fl", "timestamp,statuscode"), ("filter", "statuscode:200")], 20⟩

/-- The raw-content fetch issued by `try_wayback` (timeout 30). -/
def rawRequest (ts u : String) : Request := ⟨waybackRawUrl ts u, [], 30⟩

/-- `try_wayback`: the same dead-URL guard, the CDX lookup
(`http_get` + falsy check + `json.loads`, via `classify`), the
`len(rows) < 2` check, `timestamp = rows[1][0]`, then the raw fetch
validated by `is_valid_swf`. -/
def try_wayback (env : Env) (url : JValue) :
    Except Unit (Option (List Nat)) × List Request :=
  if jTruthy url then
    match url with
    | .str u =>
      if strStarts u LOCALFLASH then (.ok none, [])
      else
        match classify env (cdxRequest u) with
        | .noData => (.ok none, [cdxRequest u])
        | .parseError => (.ok none, [cdxRequest u])
        | .parsed rows =>
          match jLen rows with
          | .error e => (.error e, [cdxRequest u])
          | .ok n =>
            if n < 2 then (.ok none, [cdxRequest u])
            else
              match jIndex rows 1 with
              | .error e => (.error e, [cdxRequest u])
              | .ok row =>
                match jIndex row 0 with
                | .error e => (.error e, [cdxRequest u])
                | .ok tsv =>
                  let data := env.httpGet (rawRequest (pyStr tsv) u)
                  if is_valid_swf data then
                    (.ok data, [cdxRequest u, rawRequest (pyStr tsv) u])
                  else (.ok none, [cdxRequest u, rawRequest (pyStr tsv) u])
    | _ => (.error (), [])
  else (.ok none, [])

/-- The three outcome strings of `fetch_game`: `"ok"`, `"skip"`, `"fail"`. -/
inductive Outcome where
  | ok : Outcome
  | skip : Outcome
  | fail : Outcome
deriving DecidableEq

/-- Writing the downloaded bytes to `games/<slug>.swf`. -/
def updateFs (fs : String → Option (List Nat)) (slug : String) (data : List Nat) :
    String → Option (List Nat) :=
  fun s => if s = slug then some data else fs s

/-- The tail of `fetch_game`: `if swf:` (truthy bytes) write the file and
return `"ok"`, else return `"fail"`. -/
def finishGame (fs : String → Option (List Nat)) (slug : String)
    (swf : Option (List Nat)) (reqs : List Request) :
    Except Unit (Outcome × (String → Option (List Nat)) × List Request) :=
  match swf with
  | some data =>
    if data.isEmpty then .ok (.fail, fs, reqs)
    else .ok (.ok, updateFs fs slug data, reqs)
  | none => .ok (.fail, fs, reqs)

/-- `fetch_game`: skip if the file exists, resolve via Flashpoint, read the
matched record's fields, try the direct fetch, fall back to Wayback only if
it failed (`if not swf:`), then persist on success.  The result carries the
outcome, the updated storage, and every request issued. -/
def fetch_game (env : Env) (fs : String → Option (List Nat)) (slug : String) :
    Except Unit (Outcome × (String → Option (List Nat)) × List Request) :=
  match fs slug with
  | some _ => .ok (.skip, fs, [])
  | none =>
    match search_flashpoint env (slug_to_title slug) with
    | (.error e, _) => .error e
    | (.ok none, reqs0) => .ok (.fail, fs, reqs0)
    | (.ok (some m), reqs0) =>
      if jTruthy m then
        match jGet m "title" (.str "?") with
        | .error e => .error e
        | .ok _ =>
          match jGet m "platform" (.str "?") with
          | .error e => .error e
          | .ok _ =>
            match jGet m "launchCommand" (.str "") with
            | .error e => .error e
            | .ok launch =>
              match try_direct env launch with
              | (.error e, _) => .error e
              | (.ok swf1, reqs1) =>
                match swf1 with
                | some d =>
                  if d.isEmpty then
                    match try_wayback env launch with
                    | (.error e, _) => .error e
                    | (.ok swf2, reqs2) =>
                      finishGame fs slug swf2 (reqs0 ++ reqs1 ++ reqs2)
                  else finishGame fs slug (some d) (reqs0 ++ reqs1)
                | none =>
                  match try_wayback env launch with
                  | (.error e, _) => .error e
                  | (.ok swf2, reqs2) =>
                    finishGame fs slug swf2 (reqs0 ++ reqs1 ++ reqs2)
      else .ok (.fail, fs, reqs0)

/-- The per-outcome slug lists accumulated by `main` (`results["ok"]`,
`results["skip"]`, `results["fail"]`), each in processing order. -/
structure RunResults where
  ok : List String
  skip : List String
  fail : List String

/-- `results[outcome].append(slug)` (expressed by prepending at the head of
the recursion, which preserves list order). -/
def addOutcome (res : RunResults) : Outcome → String → RunResults
  | .ok, s => { res with ok := s :: res.ok }
  | .skip, s => { res with skip := s :: res.skip }
  | .fail, s => { res with fail := s :: res.fail }

/-- The loop of `main` over an identifier list: processes each slug with
`fetch_game`, accumulates outcome lists, concatenates request logs, and
counts the `time.sleep(1.0)` polite delays (applied after every non-skip
identifier). -/
def runGames (env : Env) : List String → (String → Option (List Nat)) →
    Except Unit (RunResults × (String → Option (List Nat)) × List Request × Nat)
  | [], fs => .ok (⟨[], [], []⟩, fs, [], 0)
  | slug :: rest, fs =>
    match fetch_game env fs slug with
    | .error e => .error e
    | .ok (outcome, fs1, reqs) =>
      match runGames env rest fs1 with
      | .error e => .error e
      | .ok (res, fs2, reqs2, d) =>
        .ok (addOutcome res outcome slug, fs2, reqs ++ reqs2,
          (if outcome = .skip then 0 else 1) + d)

/-- `main`: the batch run over the fixed `GAMES` list. -/
def main (env : Env) (fs : String → Option (List Nat)) :
    Except Unit (RunResults × (String → Option (List Nat)) × List Request × Nat) :=
  runGames env GAMES fs

/-- A well-formed catalog record: string title and platform tags, plus an
arbitrary launch-command value. -/
structure Record where
  title : String
  platform : String
  launch : JValue

/-- The JSON object a catalog record arrives as. -/
def recToJ (r : Record) : JValue :=
  .obj [("title", .str r.title), ("platform", .str r.platform),
    ("launchCommand", r.launch)]

/-- Selection rule 1 of the spec: case-insensitive exact title match and
platform tag containing the format-family name. -/
def rule1 (tl : String) (r : Record) : Bool :=
  decide (pyLower r.title = tl) && strContains (pyLower r.platform) "flash"

/-- Selection rule 2 of the spec: case-insensitive exact title match, any
platform. -/
def rule2 (tl : String) (r : Record) : Bool := decide (pyLower r.title = tl)

/-- Selection rule 3 of the spec: platform tag contains the format-family
name, any title. -/
def rule3 (r : Record) : Bool := strContains (pyLower r.platform) "flash"

/-- The spec's selection policy, transcribed from its words: first record
matching rule 1, else first matching rule 2, else first matching rule 3,
else the first record in returned order. -/
def selectSpec (title : String) (rs : List Record) : Option Record :=
  match rs.find? (rule1 (pyLower title)) with
  | some r => some r
  | none =>
    match rs.find? (rule2 (pyLower title)) with
    | some r => some r
    | none =>
      match rs.find? rule3 with
      | some r => some r
      | none => rs.head?

/-- An environment whose every request fails (network down). -/
def envNull : Env := ⟨fun _ => none, fun _ => .error ()⟩

/-- A valid uncompressed SWF body of minimal length. -/
def swfOK : List Nat := [70, 87, 83, 0, 0, 0, 0, 0]

/-- A concrete catalog record used by witness environments. -/
def fooRecord : JValue :=
  .obj [("title", .str "Foo"), ("platform", .str "Flash"),
    ("launchCommand", .str "http://x/a.swf")]

/-- A one-record catalog response. -/
def fooCatalog : JValue := .arr [fooRecord]

/-- A well-formed CDX response: header row, then one `[timestamp,
statuscode]` row. -/
def cdxRows : JValue :=
  .arr [.arr [.str "timestamp", .str "statuscode"],
    .arr [.str "20090101", .str "200"]]

/-- Environment for the retrieval-strategy witness: the catalog query finds
`fooRecord`, the direct fetch returns a valid SWF, the CDX lookup finds a
snapshot, and the raw archive fetch returns an invalid body. -/
def envRetr : Env :=
  ⟨fun r =>
      if r.base = WAYBACK_CDX then some [2]
      else if r.timeout = 15 then some swfOK
      else if r.timeout = 30 then some [9]
      else some [1],
    fun d => if d = [1] then .ok fooCatalog else .ok cdxRows⟩

/-- Environment where the identifier resolves but both fetches fail: only
the catalog query answers. -/
def envResolveOnly : Env :=
  ⟨fun r => if r.base = FLASHPOINT_API ++ "/search" then some [1] else none,
    fun _ => .ok fooCatalog⟩

/-- Environment whose CDX response parses to a header row plus an empty
second row. -/
def envEmptyRow : Env :=
  ⟨fun _ => some [2], fun _ => .ok (.arr [.arr [.str "h"], .arr []])⟩

/-- Environment whose CDX response parses to a header row plus a nonempty
second row whose first element is a number, not a string. -/
def envNumRow : Env :=
  ⟨fun _ => some [2], fun _ => .ok (.arr [.arr [.str "h"], .arr [.num 7]])⟩

/-- Environment whose catalog query returns the well-formed JSON number 5. -/
def envBadJson : Env := ⟨fun _ => some [1], fun _ => .ok (.num 5)⟩

theorem cond1_rec (tl : String) (r : Record) : cond1 tl (recToJ r) = .ok (rule1 tl r) := by
  show (if pyLower r.title = tl then
      Except.ok (strContains (pyLower r.platform) "flash") else Except.ok false) =
    .ok (rule1 tl r)
  by_cases h : pyLower r.title = tl <;> simp [rule1, h]

theorem cond2_rec (tl : String) (r : Record) : cond2 tl (recToJ r) = .ok (rule2 tl r) := rfl

theorem cond3_rec (r : Record) : cond3 (recToJ r) = .ok (rule3 r) := rfl

theorem findFirstE_recs (p : JValue → Except Unit Bool) (q : Record → Bool)
    (h : ∀ r, p (recToJ r) = .ok (q r)) :
    ∀ rs : List Record, findFirstE p (rs.map recToJ) = .ok ((rs.find? q).map recToJ)
  | [] => rfl
  | r :: rs => by
    simp only [List.map_cons, findFirstE, h r]
    cases hq : q r with
    | true => simp [List.find?_cons_of_pos _ hq]
    | false =>
      rw [findFirstE_recs p q h rs, List.find?_cons_of_neg _ (by simp [hq])]

/-- `search_flashpoint`'s selection agrees with the spec's four-rule policy
on every list of well-formed records. -/
theorem select_result_recs (title : String) (rs : List Record) :
    select_result title (.parsed (.arr (rs.map recToJ))) =
      .ok ((selectSpec title rs).map recToJ) := by
  cases rs with
  | nil => rfl
  | cons r rs' =>
    have h1 := findFirstE_recs _ _ (cond1_rec (pyLower title)) (r :: rs')
    have h2 := findFirstE_recs _ _ (cond2_rec (pyLower title)) (r :: rs')
    have h3 := findFirstE_recs _ _ cond3_rec (r :: rs')
    have ht : jTruthy (.arr ((r :: rs').map recToJ)) = true := rfl
    simp only [select_result, ht, if_true, jIter, h1, h2, h3, selectSpec]
    rcases hf1 : (r :: rs').find? (rule1 (pyLower title)) with _ | r1 <;>
      simp only [hf1, Option.map_none', Option.map_some']
    rcases hf2 : (r :: rs').find? (rule2 (pyLower title)) with _ | r2 <;>
      simp only [hf2, Option.map_none', Option.map_some']
    rcases hf3 : (r :: rs').find? rule3 with _ | r3 <;>
      simp only [hf3, Option.map_none', Option.map_some']
    rfl

/-- C1: for every search term and list of returned catalog records, the
resolver selects the first record matching the highest-priority applicable
rule (1: exact title and platform containing "flash"; 2: exact title; 3:
platform containing "flash"; 4: first in returned order), and in particular
for results `[{title:"Foo", platform:"Web"}, {title:"Foo", platform:"Flash
Player"}]` and term "foo" it selects the second record. -/
theorem resolver_selection_policy (title : String) (rs : List Record) :
    select_result title (.parsed (.arr (rs.map recToJ))) =
      .ok ((selectSpec title rs).map recToJ) ∧
    select_result "foo"
      (.parsed (.arr [.obj [("title", .str "Foo"), ("platform", .str "Web")],
        .obj [("title", .str "Foo"), ("platform", .str "Flash Player")]])) =
      .ok (some (.obj [("title", .str "Foo"), ("platform", .str "Flash Player")])) :=
  ⟨select_result_recs title rs, rfl⟩

/-- C7 counterexample: on the well-formed JSON payload `5` (not an array of
objects) the resolver raises (Python: `for r in results` raises TypeError)
instead of returning none, so the claim fails as stated. -/
theorem resolver_raises_on_nonarray_json :
    select_result "foo" (.parsed (.num 5)) = .error () ∧
    select_result "foo" (.parsed (.num 5)) ≠ .ok none := by
  refine ⟨rfl, fun h => ?_⟩
  rw [show select_result "foo" (.parsed (.num 5)) = .error () from rfl] at h
  exact Except.noConfusion h

/-- C7 (amended): the resolver returns none, never raising, when the
response is absent/empty, when it is malformed JSON, and when it parses to
any falsy value (such as the empty array); and it never raises on a
response parsing to an array of well-formed records.  (A truthy parsed
value of another shape can raise — see the counterexample.) -/
theorem resolver_soft_failure :
    (∀ t, select_result t .noData = .ok none) ∧
    (∀ t, select_result t .parseError = .ok none) ∧
    (∀ t j, jTruthy j = false → select_result t (.parsed j) = .ok none) ∧
    (∀ t (rs : List Record),
      select_result t (.parsed (.arr (rs.map recToJ))) ≠ .error ()) := by
  refine ⟨fun t => rfl, fun t => rfl, fun t j hj => ?_, fun t rs h => ?_⟩
  · simp [select_result, hj]
  · rw [select_result_recs] at h
    exact Except.noConfusion h

/-- Witness for the amended C7 theorem at the empty-array payload. -/
theorem resolver_soft_failure_witness :
    jTruthy (.arr []) = false ∧ select_result "x" (.parsed (.arr [])) = .ok none :=
  ⟨rfl, resolver_soft_failure.2.2.1 "x" (.arr []) rfl⟩

/-- C3 counterexample: the 3-byte buffer `b"FWS"` has a recognized
signature as its first three bytes, yet `is_valid_swf` returns false
(length below 8), so the claim's first half fails as stated. -/
theorem validator_short_signature_invalid :
    ([70, 87, 83] : List Nat).take 3 = FWS ∧
    is_valid_swf (some [70, 87, 83]) = false :=
  ⟨rfl, rfl⟩

/-- C3 (amended): for buffers of length at least 8, validity holds exactly
when the first three bytes are one of the three signatures; shorter buffers
(and the absent buffer) are always invalid. -/
theorem validator_contract (d : List Nat) :
    (8 ≤ d.length →
      (is_valid_swf (some d) = true ↔
        (d.take 3 = FWS ∨ d.take 3 = CWS ∨ d.take 3 = ZWS))) ∧
    (d.length < 8 → is_valid_swf (some d) = false) ∧
    is_valid_swf none = false := by
  refine ⟨fun h8 => ?_, fun hlt => ?_, rfl⟩
  · have hni : ¬(d.isEmpty ∨ d.length < 8) := by
      rcases d with _ | ⟨b, d'⟩
      · simp at h8
      · simp only [List.isEmpty_cons, Bool.false_eq_true, false_or]
        omega
    simp [is_valid_swf, hni]
    refine fun _ => ⟨?_, h8⟩
    intro h0
    subst h0
    simp at h8
  · simp [is_valid_swf, Or.inr hlt]

/-- Witness for the amended C3 theorem on a valid 8-byte FWS buffer. -/
theorem validator_contract_witness :
    8 ≤ ([70, 87, 83, 0, 0, 0, 0, 0] : List Nat).length ∧
    is_valid_swf (some [70, 87, 83, 0, 0, 0, 0, 0]) = true :=
  ⟨by decide, ((validator_contract _).1 (by decide)).mpr (by decide)⟩

/-- C4: a missing/empty source URL, or one starting with the dead
`http://localflash` marker, makes both the direct step and the Wayback
fallback return none with an empty request log, for every environment. -/
theorem retrieval_dead_url_guard (env : Env) (u : String)
    (h : u = "" ∨ strStarts u LOCALFLASH = true) :
    try_direct env (.str u) = (.ok none, []) ∧
    try_wayback env (.str u) = (.ok none, []) := by
  cases h with
  | inl h0 => subst h0; exact ⟨rfl, rfl⟩
  | inr hp =>
    have hne : u ≠ "" := by
      intro h0
      subst h0
      exact absurd hp (by decide)
    have ht : jTruthy (.str u) = true := by simp [jTruthy, hne]
    constructor
    · simp [try_direct, ht, hp]
    · simp [try_wayback, ht, hp]

/-- Witness for C4 at a concrete localflash URL and the all-failing
environment. -/
theorem retrieval_dead_url_guard_witness :
    strStarts "http://localflash/game.swf" LOCALFLASH = true ∧
    try_direct envNull (.str "http://localflash/game.swf") = (.ok none, []) ∧
    try_wayback envNull (.str "http://localflash/game.swf") = (.ok none, []) :=
  ⟨rfl,
    (retrieval_dead_url_guard envNull "http://localflash/game.swf" (Or.inr rfl)).1,
    (retrieval_dead_url_guard envNull "http://localflash/game.swf" (Or.inr rfl)).2⟩

/-- C9: an identifier present in the override table normalizes to exactly
the override value; any other identifier has its separators replaced by
spaces and is then title-cased; in particular
`slug_to_title "bot-arena-2" = "Bot Arena 2"`. -/
theorem normalizer_override_and_default :
    (∀ slug t, TITLE_OVERRIDES.lookup slug = some t → slug_to_title slug = t) ∧
    (∀ slug, TITLE_OVERRIDES.lookup slug = none →
      slug_to_title slug = pyTitle (replaceSeps slug)) ∧
    slug_to_title "bot-arena-2" = "Bot Arena 2" := by
  refine ⟨fun slug t h => ?_, fun slug h => ?_, rfl⟩
  · simp [slug_to_title, h]
  · simp [slug_to_title, h]

/-- Witness for C9: the "copter" override wins over the default transform
(which would give "Copter"). -/
theorem normalizer_override_witness :
    TITLE_OVERRIDES.lookup "copter" = some "Helicopter Game" ∧
    slug_to_title "copter" = "Helicopter Game" :=
  ⟨rfl, normalizer_override_and_default.1 "copter" "Helicopter Game" rfl⟩

/-- C2: (1) the CDX query carries exactly the parameters output=json,
limit=1, fl=timestamp,statuscode, filter=statuscode:200; (2) when the index
response parses to an array with no snapshot row the fallback returns none
after the single index request; (3) when a snapshot row is present the
fallback issues exactly one further fetch, of the raw-content URL built
from the returned timestamp and the original URL with timeout 30, and
accepts the body only if the validator passes; (4) the fallback runs only
when the direct fetch failed: a validated direct fetch ends `fetch_game`
with only the catalog and direct requests issued. -/
theorem wayback_fallback_contract :
    (∀ u, (cdxRequest u).params =
      [("url", u), ("output", "json"), ("limit", "1"),
       ("fl", "timestamp,statuscode"), ("filter", "statuscode:200")]) ∧
    (∀ env u rows, jTruthy (.str u) = true → strStarts u LOCALFLASH = false →
      classify env (cdxRequest u) = .parsed (.arr rows) → rows.length < 2 →
      try_wayback env (.str u) = (.ok none, [cdxRequest u])) ∧
    (∀ env u ts r0 row1 rest, jTruthy (.str u) = true →
      strStarts u LOCALFLASH = false →
      classify env (cdxRequest u) =
        .parsed (.arr (r0 :: .arr (.str ts :: row1) :: rest)) →
      try_wayback env (.str u) =
        ((if is_valid_swf (env.httpGet (rawRequest ts u)) then
            .ok (env.httpGet (rawRequest ts u)) else .ok none),
         [cdxRequest u, rawRequest ts u]) ∧
      (rawRequest ts u).base = waybackRawUrl ts u ∧
      (rawRequest ts u).timeout = 30) ∧
    (∀ env fs slug flds reqs0 d reqs1,
      fs slug = none →
      search_flashpoint env (slug_to_title slug) =
        (.ok (some (.obj flds)), reqs0) →
      jTruthy (.obj flds) = true →
      try_direct env ((flds.lookup "launchCommand").getD (.str "")) =
        (.ok (some d), reqs1) →
      d.isEmpty = false →
      fetch_game env fs slug = .ok (.ok, updateFs fs slug d, reqs0 ++ reqs1)) := by
  refine ⟨fun u => rfl, ?_, ?_, ?_⟩
  · intro env u rows ht hs hc hlen
    simp only [try_wayback, ht, if_true, hs, Bool.false_eq_true, if_false, hc,
      jLen]
    rw [if_pos hlen]
  · intro env u ts r0 row1 rest ht hs hc
    refine ⟨?_, rfl, rfl⟩
    simp only [try_wayback, ht, if_true, hs, Bool.false_eq_true, if_false, hc,
      jLen, jIndex, List.length_cons, List.get?, pyStr]
    rw [if_neg (by omega)]
    cases hv : is_valid_swf (env.httpGet (rawRequest ts u)) <;> simp [hv]
  · intro env fs slug flds reqs0 d reqs1 hfs hsearch htr hdir hde
    simp only [fetch_game, hfs, hsearch, htr, if_true, jGet, hdir, hde,
      finishGame, Bool.false_eq_true, if_false]

/-- Witness for C2: in `envRetr` the snapshot row yields the raw fetch of
the timestamped URL whose body fails validation (degrading to none), and
the direct-fetch success ends `fetch_game` without any Wayback request. -/
theorem wayback_fallback_contract_witness :
    try_wayback envRetr (.str "http://x/a.swf") =
      (.ok none,
       [cdxRequest "http://x/a.swf", rawRequest "20090101" "http://x/a.swf"]) ∧
    fetch_game envRetr (fun _ => none) "foo" =
      .ok (.ok, updateFs (fun _ => none) "foo" swfOK,
        [searchRequest (slug_to_title "foo")] ++ [⟨"http://x/a.swf", [], 15⟩]) :=
  ⟨((wayback_fallback_contract.2.2.1 envRetr "http://x/a.swf" "20090101"
      (.arr [.str "timestamp", .str "statuscode"]) [.str "200"] []
      rfl rfl rfl).1).trans rfl,
   wayback_fallback_contract.2.2.2 envRetr (fun _ => none) "foo"
     [("title", .str "Foo"), ("platform", .str "Flash"),
      ("launchCommand", .str "http://x/a.swf")]
     [searchRequest (slug_to_title "foo")] swfOK [⟨"http://x/a.swf", [], 15⟩]
     rfl rfl rfl rfl rfl⟩

/-- C8 counterexample: a CDX response parsing to a header row plus an EMPTY
second row makes `try_wayback` raise (Python: `rows[1][0]` raises
IndexError), so the no-exception claim fails as stated. -/
theorem wayback_raises_on_empty_row :
    classify envEmptyRow (cdxRequest "http://x/a.swf") =
      .parsed (.arr [.arr [.str "h"], .arr []]) ∧
    try_wayback envEmptyRow (.str "http://x/a.swf") =
      (.error (), [cdxRequest "http://x/a.swf"]) :=
  ⟨rfl, rfl⟩

/-- C8 (amended): every network failure, empty body, or malformed-JSON
index response, and every parsed array with fewer than two rows, degrades
to none without raising; a response whose second row is a nonempty array
(as the real index returns) also never raises.  (A parsed response of
unexpected shape — e.g. an empty second row — does raise; see the
counterexample.) -/
theorem wayback_soft_failure (env : Env) (u : String)
    (ht : jTruthy (.str u) = true) (hs : strStarts u LOCALFLASH = false) :
    (classify env (cdxRequest u) = .noData →
      try_wayback env (.str u) = (.ok none, [cdxRequest u])) ∧
    (classify env (cdxRequest u) = .parseError →
      try_wayback env (.str u) = (.ok none, [cdxRequest u])) ∧
    (∀ rows, classify env (cdxRequest u) = .parsed (.arr rows) →
      rows.length < 2 →
      try_wayback env (.str u) = (.ok none, [cdxRequest u])) ∧
    (∀ r0 x row1 rest,
      classify env (cdxRequest u) =
        .parsed (.arr (r0 :: .arr (x :: row1) :: rest)) →
      ∃ v, try_wayback env (.str u) =
        (.ok v, [cdxRequest u, rawRequest (pyStr x) u])) := by
  refine ⟨fun hc => ?_, fun hc => ?_, fun rows hc hlen => ?_, fun r0 x row1 rest hc => ?_⟩
  · simp [try_wayback, ht, hs, hc]
  · simp [try_wayback, ht, hs, hc]
  · simp only [try_wayback, ht, if_true, hs, Bool.false_eq_true, if_false, hc,
      jLen]
    rw [if_pos hlen]
  · refine ⟨if is_valid_swf (env.httpGet (rawRequest (pyStr x) u)) then
      env.httpGet (rawRequest (pyStr x) u) else none, ?_⟩
    simp only [try_wayback, ht, if_true, hs, Bool.false_eq_true, if_false, hc,
      jLen, jIndex, List.length_cons, List.get?]
    rw [if_neg (by omega)]
    cases hv : is_valid_swf (env.httpGet (rawRequest (pyStr x) u)) <;> simp [hv]

/-- Witness for the amended C8 theorem: with the network down the index
lookup is absent and the fallback returns none after one request; and a
parsed index response whose second row is the nonempty array `[7]` (a
non-string first element) completes without raising, its timestamp
stringified into the raw URL. -/
theorem wayback_soft_failure_witness :
    jTruthy (.str "http://x/a.swf") = true ∧
    classify envNull (cdxRequest "http://x/a.swf") = .noData ∧
    try_wayback envNull (.str "http://x/a.swf") =
      (.ok none, [cdxRequest "http://x/a.swf"]) ∧
    classify envNumRow (cdxRequest "http://x/a.swf") =
      .parsed (.arr [.arr [.str "h"], .arr [.num 7]]) ∧
    (∃ v, try_wayback envNumRow (.str "http://x/a.swf") =
      (.ok v, [cdxRequest "http://x/a.swf",
        rawRequest (pyStr (.num 7)) "http://x/a.swf"])) :=
  ⟨rfl, rfl, (wayback_soft_failure envNull "http://x/a.swf" rfl rfl).1 rfl, rfl,
    (wayback_soft_failure envNumRow "http://x/a.swf" rfl rfl).2.2.2
      (.arr [.str "h"]) (.num 7) [] [] rfl⟩

/-- Any body returned by `try_direct` passed the validator. -/
theorem try_direct_valid {env : Env} {url : JValue} {d : List Nat}
    {reqs : List Request} (h : try_direct env url = (.ok (some d), reqs)) :
    is_valid_swf (some d) = true := by
  simp only [try_direct] at h
  repeat' split at h
  all_goals simp_all

/-- Any body returned by `try_wayback` passed the validator. -/
theorem try_wayback_valid {env : Env} {url : JValue} {d : List Nat}
    {reqs : List Request} (h : try_wayback env url = (.ok (some d), reqs)) :
    is_valid_swf (some d) = true := by
  simp only [try_wayback] at h
  repeat' split at h
  all_goals simp_all

/-- An identifier whose file exists is skipped with no request issued and
no storage change. -/
theorem fetch_game_skip {env : Env} {fs : String → Option (List Nat)}
    {slug : String} (h : (fs slug).isSome = true) :
    fetch_game env fs slug = .ok (.skip, fs, []) := by
  obtain ⟨b, hb⟩ := Option.isSome_iff_exists.mp h
  simp [fetch_game, hb]

/-- Case analysis on a completed `fetch_game`: a skip leaves everything
untouched (and the file existed), a failure leaves storage untouched, and a
success stores exactly one validated buffer under the processed slug. -/
theorem fetch_game_master {env : Env} {fs : String → Option (List Nat)}
    {slug : String} {o : Outcome} {fs1 : String → Option (List Nat)}
    {reqs : List Request}
    (h : fetch_game env fs slug = .ok (o, fs1, reqs)) :
    (o = .skip ∧ fs1 = fs ∧ reqs = [] ∧ (fs slug).isSome = true) ∨
    (o = .fail ∧ fs1 = fs) ∨
    (o = .ok ∧ ∃ d, is_valid_swf (some d) = true ∧ fs1 = updateFs fs slug d) := by
  cases hslug : fs slug with
  | some b =>
    simp only [fetch_game, hslug] at h
    rw [Except.ok.injEq, Prod.mk.injEq, Prod.mk.injEq] at h
    exact Or.inl ⟨h.1.symm, h.2.1.symm, h.2.2.symm, by simp [hslug]⟩
  | none =>
    cases hsearch : search_flashpoint env (slug_to_title slug) with
    | mk sres reqs0 =>
    cases sres with
    | error e =>
      simp only [fetch_game, hslug, hsearch] at h
      exact absurd h (by simp)
    | ok mo =>
    cases mo with
    | none =>
      simp only [fetch_game, hslug, hsearch] at h
      rw [Except.ok.injEq, Prod.mk.injEq, Prod.mk.injEq] at h
      exact Or.inr (Or.inl ⟨h.1.symm, h.2.1.symm⟩)
    | some m =>
    cases htr : jTruthy m with
    | false =>
      simp only [fetch_game, hslug, hsearch, htr, Bool.false_eq_true,
        if_false] at h
      rw [Except.ok.injEq, Prod.mk.injEq, Prod.mk.injEq] at h
      exact Or.inr (Or.inl ⟨h.1.symm, h.2.1.symm⟩)
    | true =>
      cases m with
      | null => exact absurd htr (by simp [jTruthy])
      | bool bb =>
        simp only [fetch_game, hslug, hsearch, htr, if_true, jGet] at h
        exact absurd h (by simp)
      | num n =>
        simp only [fetch_game, hslug, hsearch, htr, if_true, jGet] at h
        exact absurd h (by simp)
      | str s =>
        simp only [fetch_game, hslug, hsearch, htr, if_true, jGet] at h
        exact absurd h (by simp)
      | arr xs =>
        simp only [fetch_game, hslug, hsearch, htr, if_true, jGet] at h
        exact absurd h (by simp)
      | obj flds =>
        simp only [fetch_game, hslug, hsearch, htr, if_true, jGet] at h
        cases hdir : try_direct env ((flds.lookup "launchCommand").getD (.str "")) with
        | mk dres reqs1 =>
        cases dres with
        | error e =>
          rw [hdir] at h
          exact absurd h (by simp)
        | ok swf1 =>
        cases swf1 with
        | some dd =>
          cases hde : dd.isEmpty with
          | false =>
            simp only [hdir, hde, Bool.false_eq_true, if_false, finishGame] at h
            rw [Except.ok.injEq, Prod.mk.injEq, Prod.mk.injEq] at h
            exact Or.inr (Or.inr ⟨h.1.symm, dd, try_direct_valid hdir,
              h.2.1.symm⟩)
          | true =>
            simp only [hdir, hde, if_true] at h
            cases hway : try_wayback env ((flds.lookup "launchCommand").getD (.str "")) with
            | mk wres reqs2 =>
            cases wres with
            | error e =>
              rw [hway] at h
              exact absurd h (by simp)
            | ok swf2 =>
            cases swf2 with
            | none =>
              simp only [hway, finishGame] at h
              rw [Except.ok.injEq, Prod.mk.injEq, Prod.mk.injEq] at h
              exact Or.inr (Or.inl ⟨h.1.symm, h.2.1.symm⟩)
            | some d2 =>
              cases hd2 : d2.isEmpty with
              | true =>
                simp only [hway, finishGame, hd2, if_true] at h
                rw [Except.ok.injEq, Prod.mk.injEq, Prod.mk.injEq] at h
                exact Or.inr (Or.inl ⟨h.1.symm, h.2.1.symm⟩)
              | false =>
                simp only [hway, finishGame, hd2, Bool.false_eq_true,
                  if_false] at h
                rw [Except.ok.injEq, Prod.mk.injEq, Prod.mk.injEq] at h
                exact Or.inr (Or.inr ⟨h.1.symm, d2, try_wayback_valid hway,
                  h.2.1.symm⟩)
        | none =>
          simp only [hdir] at h
          cases hway : try_wayback env ((flds.lookup "launchCommand").getD (.str "")) with
          | mk wres reqs2 =>
          cases wres with
          | error e =>
            rw [hway] at h
            exact absurd h (by simp)
          | ok swf2 =>
          cases swf2 with
          | none =>
            simp only [hway, finishGame] at h
            rw [Except.ok.injEq, Prod.mk.injEq, Prod.mk.injEq] at h
            exact Or.inr (Or.inl ⟨h.1.symm, h.2.1.symm⟩)
          | some d2 =>
            cases hd2 : d2.isEmpty with
            | true =>
              simp only [hway, finishGame, hd2, if_true] at h
              rw [Except.ok.injEq, Prod.mk.injEq, Prod.mk.injEq] at h
              exact Or.inr (Or.inl ⟨h.1.symm, h.2.1.symm⟩)
            | false =>
              simp only [hway, finishGame, hd2, Bool.false_eq_true,
                if_false] at h
              rw [Except.ok.injEq, Prod.mk.injEq, Prod.mk.injEq] at h
              exact Or.inr (Or.inr ⟨h.1.symm, d2, try_wayback_valid hway,
                h.2.1.symm⟩)

/-- `fetch_game` never removes a stored file. -/
theorem fetch_game_mono {env : Env} {fs : String → Option (List Nat)}
    {slug : String} {o : Outcome} {fs1 : String → Option (List Nat)}
    {reqs : List Request}
    (h : fetch_game env fs slug = .ok (o, fs1, reqs)) (s : String)
    (hs : (fs s).isSome = true) : (fs1 s).isSome = true := by
  rcases fetch_game_master h with ⟨_, rfl, _, _⟩ | ⟨_, rfl⟩ | ⟨_, d, _, rfl⟩
  · exact hs
  · exact hs
  · show (if s = slug then some d else fs s).isSome = true
    split
    · rfl
    · exact hs

/-- A `fetch_game` that reports success stored a file for its slug. -/
theorem fetch_game_ok_writes {env : Env} {fs : String → Option (List Nat)}
    {slug : String} {fs1 : String → Option (List Nat)} {reqs : List Request}
    (h : fetch_game env fs slug = .ok (.ok, fs1, reqs)) :
    (fs1 slug).isSome = true := by
  rcases fetch_game_master h with ⟨hsk, _⟩ | ⟨hf, _⟩ | ⟨_, d, _, rfl⟩
  · exact absurd hsk (by decide)
  · exact absurd hf (by decide)
  · show (if slug = slug then some d else fs slug).isSome = true
    rw [if_pos rfl]
    rfl

/-- The batch loop never removes a stored file. -/
theorem runGames_mono {env : Env} : ∀ (gs : List String)
    (fs : String → Option (List Nat)) (res : RunResults)
    (fs2 : String → Option (List Nat)) (reqs : List Request) (d : Nat),
    runGames env gs fs = .ok (res, fs2, reqs, d) →
    ∀ s, (fs s).isSome = true → (fs2 s).isSome = true := by
  intro gs
  induction gs with
  | nil =>
    intro fs res fs2 reqs d h s hs
    simp only [runGames] at h
    rw [Except.ok.injEq, Prod.mk.injEq, Prod.mk.injEq, Prod.mk.injEq] at h
    rw [← h.2.1]
    exact hs
  | cons slug rest ih =>
    intro fs res fs2 reqs d h s hs
    simp only [runGames] at h
    cases hfg : fetch_game env fs slug with
    | error e => simp [hfg] at h
    | ok trip =>
      obtain ⟨o, fs1, reqs1⟩ := trip
      simp only [hfg] at h
      cases hrg : runGames env rest fs1 with
      | error e => simp [hrg] at h
      | ok quad =>
        obtain ⟨res', fs2', reqs2, d'⟩ := quad
        simp only [hrg] at h
        rw [Except.ok.injEq, Prod.mk.injEq, Prod.mk.injEq, Prod.mk.injEq] at h
        rw [← h.2.1]
        exact ih fs1 res' fs2' reqs2 d' hrg s (fetch_game_mono hfg s hs)

/-- C5: a storage cell changes only when the outcome is success and the
stored buffer passed the validator; and when the identifier resolves but
both the direct and the archive fetch yield nothing, the outcome is `fail`,
storage is untouched, and the slug lands in the run's failure list. -/
theorem persisted_only_if_valid :
    (∀ env fs slug o fs1 reqs,
      fetch_game env fs slug = .ok (o, fs1, reqs) →
      ∀ s, fs1 s ≠ fs s →
      o = .ok ∧ ∃ d, fs1 s = some d ∧ is_valid_swf (some d) = true) ∧
    (∀ env fs slug flds reqs0 r1 r2,
      fs slug = none →
      search_flashpoint env (slug_to_title slug) =
        (.ok (some (.obj flds)), reqs0) →
      jTruthy (.obj flds) = true →
      try_direct env ((flds.lookup "launchCommand").getD (.str "")) =
        (.ok none, r1) →
      try_wayback env ((flds.lookup "launchCommand").getD (.str "")) =
        (.ok none, r2) →
      fetch_game env fs slug = .ok (.fail, fs, reqs0 ++ r1 ++ r2) ∧
      runGames env [slug] fs = .ok (⟨[], [], [slug]⟩, fs, reqs0 ++ r1 ++ r2, 1)) := by
  constructor
  · intro env fs slug o fs1 reqs h s hneq
    rcases fetch_game_master h with ⟨_, rfl, _, _⟩ | ⟨_, rfl⟩ | ⟨ho, d, hv, rfl⟩
    · exact absurd rfl hneq
    · exact absurd rfl hneq
    · refine ⟨ho, d, ?_, hv⟩
      by_cases hss : s = slug
      · subst hss
        show (if s = s then some d else fs s) = some d
        rw [if_pos rfl]
      · exact absurd (show updateFs fs slug d s = fs s by
          simp [updateFs, hss]) hneq
  · intro env fs slug flds reqs0 r1 r2 hfs hsearch htr hdir hway
    have hfg : fetch_game env fs slug = .ok (.fail, fs, reqs0 ++ r1 ++ r2) := by
      simp only [fetch_game, hfs, hsearch, htr, if_true, jGet, hdir, hway,
        finishGame]
    refine ⟨hfg, ?_⟩
    simp only [runGames, hfg]
    simp [addOutcome]

/-- Witness for C5 in `envResolveOnly`: "foo" resolves, both fetches fail,
the outcome is `fail`, storage stays empty, and "foo" is in the failure
list. -/
theorem persisted_only_if_valid_witness :
    fetch_game envResolveOnly (fun _ => none) "foo" =
      .ok (.fail, (fun _ => none),
        [searchRequest (slug_to_title "foo")] ++ [⟨"http://x/a.swf", [], 15⟩] ++
          [cdxRequest "http://x/a.swf"]) ∧
    runGames envResolveOnly ["foo"] (fun _ => none) =
      .ok (⟨[], [], ["foo"]⟩, (fun _ => none),
        [searchRequest (slug_to_title "foo")] ++ [⟨"http://x/a.swf", [], 15⟩] ++
          [cdxRequest "http://x/a.swf"], 1) :=
  persisted_only_if_valid.2 envResolveOnly (fun _ => none) "foo"
    [("title", .str "Foo"), ("platform", .str "Flash"),
     ("launchCommand", .str "http://x/a.swf")]
    [searchRequest (slug_to_title "foo")] [⟨"http://x/a.swf", [], 15⟩]
    [cdxRequest "http://x/a.swf"] rfl rfl rfl rfl rfl

/-- C6: an identifier with an existing file is skipped with zero requests
and zero delay; a whole run over fully-populated storage issues zero
requests, zero delays, and reports every identifier already-present; and a
run that ends with an empty failure list leaves every processed identifier
with a stored file (so a second run reproduces the skips). -/
theorem already_present_idempotent :
    (∀ env fs slug b, fs slug = some b →
      fetch_game env fs slug = .ok (.skip, fs, [])) ∧
    (∀ env gs fs, (∀ s, s ∈ gs → (fs s).isSome = true) →
      runGames env gs fs = .ok (⟨[], gs, []⟩, fs, [], 0)) ∧
    (∀ env gs fs res fs2 reqs d,
      runGames env gs fs = .ok (res, fs2, reqs, d) → res.fail = [] →
      ∀ s, s ∈ gs → (fs2 s).isSome = true) := by
  refine ⟨?_, ?_, ?_⟩
  · intro env fs slug b hb
    exact fetch_game_skip (by simp [hb])
  · intro env gs
    induction gs with
    | nil =>
      intro fs hall
      rfl
    | cons slug rest ih =>
      intro fs hall
      have h1 : fetch_game env fs slug = .ok (.skip, fs, []) :=
        fetch_game_skip (hall slug (by simp))
      have h2 := ih fs (fun s hs => hall s (by simp [hs]))
      simp only [runGames, h1, h2]
      rfl
  · intro env gs
    induction gs with
    | nil =>
      intro fs res fs2 reqs d h hfail s hs
      exact absurd hs (by simp)
    | cons slug rest ih =>
      intro fs res fs2 reqs d h hfail s hs
      simp only [runGames] at h
      cases hfg : fetch_game env fs slug with
      | error e => simp [hfg] at h
      | ok trip =>
        obtain ⟨o, fs1, reqs1⟩ := trip
        simp only [hfg] at h
        cases hrg : runGames env rest fs1 with
        | error e => simp [hrg] at h
        | ok quad =>
          obtain ⟨res', fs2', reqs2, d'⟩ := quad
          simp only [hrg] at h
          rw [Except.ok.injEq, Prod.mk.injEq, Prod.mk.injEq, Prod.mk.injEq] at h
          obtain ⟨hres, hfs2, hreqs, hd⟩ := h
          have hfail' : (addOutcome res' o slug).fail = [] := by
            rw [hres]; exact hfail
          have hofail : o ≠ .fail := by
            intro ho
            subst ho
            simp [addOutcome] at hfail'
          have hrfail : res'.fail = [] := by
            cases o with
            | ok => simpa [addOutcome] using hfail'
            | skip => simpa [addOutcome] using hfail'
            | fail => exact absurd rfl hofail
          rw [← hfs2]
          rcases List.mem_cons.mp hs with rfl | hs'
          · have h1 : (fs1 s).isSome = true := by
              cases o with
              | fail => exact absurd rfl hofail
              | ok => exact fetch_game_ok_writes hfg
              | skip =>
                rcases fetch_game_master hfg with ⟨_, rfl, _, hsome⟩ |
                  ⟨hcontra, _⟩ | ⟨hcontra, _⟩
                · exact hsome
                · exact absurd hcontra (by decide)
                · exact absurd hcontra (by decide)
            exact runGames_mono rest fs1 res' fs2' reqs2 d' hrg s h1
          · exact ih fs1 res' fs2' reqs2 d' hrg hrfail s hs'

/-- Witness for C6 on a two-identifier list with fully-populated storage. -/
theorem already_present_idempotent_witness :
    ((fun _ => some swfOK) : String → Option (List Nat)) "x" = some swfOK ∧
    fetch_game envNull (fun _ => some swfOK) "x" =
      .ok (.skip, (fun _ => some swfOK), []) ∧
    runGames envNull ["x", "y"] (fun _ => some swfOK) =
      .ok (⟨[], ["x", "y"], []⟩, (fun _ => some swfOK), [], 0) :=
  ⟨rfl, already_present_idempotent.1 envNull (fun _ => some swfOK) "x" swfOK rfl,
    already_present_idempotent.2.1 envNull ["x", "y"] (fun _ => some swfOK)
      (fun s _ => rfl)⟩

/-- C10 counterexample: with a catalog response parsing to the JSON number
5, processing the first identifier raises (the resolver's loop) and the run
crashes: no outcome is assigned and no summary is produced, so the claim
fails as stated. -/
theorem orchestrator_crash_on_bad_payload :
    classify envBadJson (searchRequest (slug_to_title "foo")) = .parsed (.num 5) ∧
    runGames envBadJson ["foo"] (fun _ => none) = .error () :=
  ⟨rfl, rfl⟩

/-- C10 (amended): on every run that completes without an exception, the
three outcome lists are order-preserving sublists of the input list, every
identifier is counted in exactly one of them, and the three counts sum to
the input length. -/
theorem orchestrator_partition (env : Env) : ∀ (gs : List String)
    (fs : String → Option (List Nat)) (res : RunResults)
    (fs2 : String → Option (List Nat)) (reqs : List Request) (d : Nat),
    runGames env gs fs = .ok (res, fs2, reqs, d) →
    res.ok.Sublist gs ∧ res.skip.Sublist gs ∧ res.fail.Sublist gs ∧
    (∀ s, res.ok.count s + res.skip.count s + res.fail.count s = gs.count s) ∧
    res.ok.length + res.skip.length + res.fail.length = gs.length := by
  intro gs
  induction gs with
  | nil =>
    intro fs res fs2 reqs d h
    simp only [runGames] at h
    rw [Except.ok.injEq, Prod.mk.injEq, Prod.mk.injEq, Prod.mk.injEq] at h
    rw [← h.1]
    simp
  | cons slug rest ih =>
    intro fs res fs2 reqs d h
    simp only [runGames] at h
    cases hfg : fetch_game env fs slug with
    | error e => simp [hfg] at h
    | ok trip =>
      obtain ⟨o, fs1, reqs1⟩ := trip
      simp only [hfg] at h
      cases hrg : runGames env rest fs1 with
      | error e => simp [hrg] at h
      | ok quad =>
        obtain ⟨res', fs2', reqs2, d'⟩ := quad
        simp only [hrg] at h
        rw [Except.ok.injEq, Prod.mk.injEq, Prod.mk.injEq, Prod.mk.injEq] at h
        obtain ⟨ih1, ih2, ih3, ihc, ihl⟩ := ih fs1 res' fs2' reqs2 d' hrg
        rw [← h.1]
        cases o with
        | ok =>
          refine ⟨List.Sublist.cons₂ slug ih1, ih2.cons slug, ih3.cons slug,
            fun s => ?_, ?_⟩
          · have hc := ihc s
            by_cases hss : (s == slug) = true <;>
              simp only [addOutcome, List.count_cons, hss, if_true,
                Bool.false_eq_true, if_false] <;>
              omega
          · simp only [addOutcome, List.length_cons]
            omega
        | skip =>
          refine ⟨ih1.cons slug, List.Sublist.cons₂ slug ih2, ih3.cons slug,
            fun s => ?_, ?_⟩
          · have hc := ihc s
            by_cases hss : (s == slug) = true <;>
              simp only [addOutcome, List.count_cons, hss, if_true,
                Bool.false_eq_true, if_false] <;>
              omega
          · simp only [addOutcome, List.length_cons]
            omega
        | fail =>
          refine ⟨ih1.cons slug, ih2.cons slug, List.Sublist.cons₂ slug ih3,
            fun s => ?_, ?_⟩
          · have hc := ihc s
            by_cases hss : (s == slug) = true <;>
              simp only [addOutcome, List.count_cons, hss, if_true,
                Bool.false_eq_true, if_false] <;>
              omega
          · simp only [addOutcome, List.length_cons]
            omega

/-- Witness for the amended C10 theorem on a completed one-identifier run. -/
theorem orchestrator_partition_witness :
    runGames envNull ["x"] (fun _ => none) =
      .ok (⟨[], [], ["x"]⟩, (fun _ => none),
        [searchRequest (slug_to_title "x")], 1) ∧
    ([] : List String).length + ([] : List String).length +
      (["x"] : List String).length = (["x"] : List String).length :=
  ⟨rfl, (orchestrator_partition envNull ["x"] (fun _ => none) ⟨[], [], ["x"]⟩
    (fun _ => none) [searchRequest (slug_to_title "x")] 1 rfl).2.2.2.2⟩

end FetchGames

